import Mathlib

/-!
# The process descriptor of `ecosystem.config.js`

The repository consists of one JavaScript module whose export is an object
literal.  The module is embedded as a syntax tree of the JavaScript
expression (`moduleSource`), together with an evaluator (`eval`) that turns an
expression into a JavaScript value under a given ambient process environment.
All statements about the descriptor are statements about the value obtained by
evaluating that tree.
-/

namespace Ecosystem

/-! ## JavaScript expressions and values -/

mutual
/-- The fragment of JavaScript expressions a configuration module can be
written in: literals, object and array literals, function expressions and
reads of the ambient environment (`process.env.NAME`). -/
inductive JSExpr where
  | str (s : String)
  | num (n : Int)
  | bool (b : Bool)
  | object (fields : JSFields)
  | array (items : JSItems)
  | func (params : List String) (body : JSExpr)
  | envRead (name : String)
/-- The `key: value` entries of an object literal, in source order. -/
inductive JSFields where
  | nil
  | cons (key : String) (val : JSExpr) (rest : JSFields)
/-- The elements of an array literal, in source order. -/
inductive JSItems where
  | nil
  | cons (head : JSExpr) (rest : JSItems)
end

/-- JavaScript values.  An object is its list of own properties in insertion
order. -/
inductive JSValue where
  | undefined
  | str (s : String)
  | num (n : Int)
  | bool (b : Bool)
  | object (props : List (String × JSValue))
  | array (elems : List JSValue)
  | closure (params : List String) (body : JSExpr)

/-- The ambient process environment (`process.env`). -/
abbrev ProcessEnv := String → Option String

mutual
/-- Evaluation of an expression under an ambient environment. -/
def eval (penv : ProcessEnv) : JSExpr → JSValue
  | .str s => .str s
  | .num n => .num n
  | .bool b => .bool b
  | .object fs => .object (evalFields penv fs)
  | .array xs => .array (evalItems penv xs)
  | .func ps b => .closure ps b
  | .envRead x =>
    match penv x with
    | some v => .str v
    | none => .undefined
/-- Evaluation of the entries of an object literal. -/
def evalFields (penv : ProcessEnv) : JSFields → List (String × JSValue)
  | .nil => []
  | .cons k v rest => (k, eval penv v) :: evalFields penv rest
/-- Evaluation of the elements of an array literal. -/
def evalItems (penv : ProcessEnv) : JSItems → List JSValue
  | .nil => []
  | .cons x rest => eval penv x :: evalItems penv rest
end

mutual
/-- An expression is literal-only when it is built from string, number and
boolean literals nested in object and array literals: it holds no function
expression and no read of the ambient environment. -/
def literalOnly : JSExpr → Bool
  | .str _ => true
  | .num _ => true
  | .bool _ => true
  | .object fs => literalOnlyFields fs
  | .array xs => literalOnlyItems xs
  | .func _ _ => false
  | .envRead _ => false
/-- Every value of the entries is literal-only. -/
def literalOnlyFields : JSFields → Bool
  | .nil => true
  | .cons _ v rest => literalOnly v && literalOnlyFields rest
/-- Every element is literal-only. -/
def literalOnlyItems : JSItems → Bool
  | .nil => true
  | .cons x rest => literalOnly x && literalOnlyItems rest
end

mutual
/-- Number of array literals occurring in an expression. -/
def arrayCount : JSExpr → Nat
  | .str _ => 0
  | .num _ => 0
  | .bool _ => 0
  | .object fs => arrayCountFields fs
  | .array xs => 1 + arrayCountItems xs
  | .func _ b => arrayCount b
  | .envRead _ => 0
/-- Number of array literals occurring in the entries of an object literal. -/
def arrayCountFields : JSFields → Nat
  | .nil => 0
  | .cons _ v rest => arrayCount v + arrayCountFields rest
/-- Number of array literals occurring in the elements of an array literal. -/
def arrayCountItems : JSItems → Nat
  | .nil => 0
  | .cons x rest => arrayCount x + arrayCountItems rest
end

mutual
/-- Number of function values reachable in a value. -/
def closureCount : JSValue → Nat
  | .undefined => 0
  | .str _ => 0
  | .num _ => 0
  | .bool _ => 0
  | .object ps => closureCountProps ps
  | .array xs => closureCountElems xs
  | .closure _ _ => 1
/-- Number of function values reachable from a property list. -/
def closureCountProps : List (String × JSValue) → Nat
  | [] => 0
  | (_, v) :: rest => closureCount v + closureCountProps rest
/-- Number of function values reachable from an element list. -/
def closureCountElems : List JSValue → Nat
  | [] => 0
  | x :: rest => closureCount x + closureCountElems rest
end

/-! ## Property access -/

/-- Own-property lookup in a property list.  A key written twice in an object
literal keeps its last value. -/
def getProp (k : String) : List (String × JSValue) → Option JSValue
  | [] => none
  | (k', v) :: rest =>
    match getProp k rest with
    | some w => some w
    | none => if k' = k then some v else none

/-- Own-property read `v.k`: `undefined` when `v` is no object or lacks the
property. -/
def get (k : String) : JSValue → JSValue
  | .object ps => (getProp k ps).getD .undefined
  | _ => .undefined

/-- Element list of an array value (empty for any other value). -/
def elements : JSValue → List JSValue
  | .array xs => xs
  | _ => []

/-- Indexed read `v[i]`: `undefined` when out of range. -/
def getIndex (i : Nat) (v : JSValue) : JSValue :=
  ((elements v).get? i).getD .undefined

/-- Own enumerable keys of an object, in insertion order (`Object.keys`). -/
def ownKeys : JSValue → List String
  | .object ps => ps.map Prod.fst
  | _ => []

/-- The string held by a value, when it is a string. -/
def asString : JSValue → Option String
  | .str s => some s
  | _ => none

/-- The integer held by a value, when it is a number. -/
def asInt : JSValue → Option Int
  | .num n => some n
  | _ => none

/-- The boolean held by a value, when it is a boolean. -/
def asBool : JSValue → Option Bool
  | .bool b => some b
  | _ => none

/-- Insert or overwrite one property, keeping the position of an existing
key. -/
def setProp (k : String) (v : JSValue) : List (String × JSValue) → List (String × JSValue)
  | [] => [(k, v)]
  | (k', w) :: rest => if k' = k then (k', v) :: rest else (k', w) :: setProp k v rest

/-- Right-biased merge of two objects, `Object.assign` onto a fresh copy of `base`:
every property of `overlay` is written over `base`. -/
def assign (base overlay : JSValue) : JSValue :=
  match base, overlay with
  | .object bs, .object os => .object (os.foldl (fun acc kv => setProp kv.1 kv.2 acc) bs)
  | .object bs, _ => .object bs
  | _, .object os => .object (os.foldl (fun acc kv => setProp kv.1 kv.2 acc) [])
  | _, _ => .object []

/-! ## The module `ecosystem.config.js` -/

/-- The object literal assigned to `module.exports`. -/
def moduleSource : JSExpr :=
  .object (.cons "apps" (.array (.cons (.object (
    .cons "name" (.str "discord-giveaway-bot") <|
    .cons "script" (.str "./discord-giveaway-bot") <|
    .cons "interpreter" (.str "none") <|
    .cons "instances" (.num 1) <|
    .cons "exec_mode" (.str "fork") <|
    .cons "autorestart" (.bool true) <|
    .cons "watch" (.bool false) <|
    .cons "max_memory_restart" (.str "1G") <|
    .cons "env" (.object (.cons "NODE_ENV" (.str "development") .nil)) <|
    .cons "env_production" (.object (.cons "NODE_ENV" (.str "production") .nil)) <|
    .cons "error_file" (.str "./bot-error.log") <|
    .cons "out_file" (.str "./bot.log") <|
    .cons "time" (.bool true) <|
    .nil)) .nil)) .nil)

/-- The value of `module.exports` after the module is evaluated in a process
with ambient environment `penv`. -/
def moduleExports (penv : ProcessEnv) : JSValue :=
  eval penv moduleSource

/-- The managed-process record `module.exports.apps[0]`. -/
def descriptor (penv : ProcessEnv) : JSValue :=
  getIndex 0 (get "apps" (moduleExports penv))

/-! ## What the supervisor reads from a record -/

/-- Whether a value is a string of positive length. -/
def isNonEmptyString : JSValue → Bool
  | .str s => decide (s ≠ "")
  | _ => false

/-- Modelled from the spec: the load-time condition "required fields (`name`,
`executablePath`) are missing or malformed" of the external supervisor, which
is not part of the repository.  `executablePath` is the key `script`. -/
def missingRequiredField (app : JSValue) : Bool :=
  !(isNonEmptyString (get "name" app)) || !(isNonEmptyString (get "script" app))

/-- Modelled from the spec: the key under which a profile is stored.  No
profile selects `env`; profile `p` selects `env_p`. -/
def profileKey : Option String → String
  | none => "env"
  | some p => "env_" ++ p

/-- Modelled from the spec: the environment mapping selected for a launch. -/
def selectProfile (profile : Option String) (app : JSValue) : JSValue :=
  get (profileKey profile) app

/-- The string-valued entries of a property list, as environment variables. -/
def envVars : List (String × JSValue) → List (String × String)
  | [] => []
  | (k, .str s) :: rest => (k, s) :: envVars rest
  | _ :: rest => envVars rest

/-- Modelled from the spec: the variables a launch with the given profile adds
to the environment of the spawned process. -/
def launchEnvironment (profile : Option String) (app : JSValue) : List (String × String) :=
  match selectProfile profile app with
  | .object ps => envVars ps
  | _ => []

/-- Whether a key names an environment profile: `env` or `env_<profile>`. -/
def isProfileKey (k : String) : Bool :=
  k == "env" || "env_".toList.isPrefixOf k.toList

/-- The environment-profile keys a record declares, in source order. -/
def profileKeys (app : JSValue) : List String :=
  (ownKeys app).filter isProfileKey

/-- Value of a run of decimal digits. -/
def digitsValue (ds : List Char) : Nat :=
  ds.foldl (fun n c => 10 * n + (c.toNat - 48)) 0

/-- Modelled from the spec: the binary unit suffixes of a byte quantity,
`K = 2^10`, `M = 2^20`, `G = 2^30`. -/
def unitMultiplier : Char → Option Nat
  | 'K' => some (2 ^ 10)
  | 'M' => some (2 ^ 20)
  | 'G' => some (2 ^ 30)
  | _ => none

/-- Modelled from the spec: reading a string as a byte quantity, a non-empty
run of decimal digits followed by at most one unit suffix. -/
def parseByteQuantity (s : String) : Option Nat :=
  match s.toList.span Char.isDigit with
  | ([], _) => none
  | (ds, []) => some (digitsValue ds)
  | (ds, [u]) => (unitMultiplier u).map (digitsValue ds * ·)
  | _ => none

/-- The memory ceiling of a record in bytes: a number is taken as a byte
count, a string is parsed as a byte quantity. -/
def memoryRestartThreshold (app : JSValue) : Option Nat :=
  match get "max_memory_restart" app with
  | .str s => parseByteQuantity s
  | .num n => if 0 ≤ n then some n.toNat else none
  | _ => none

/-- Modelled from the spec: the supervisor forces a restart when resident
memory exceeds the threshold. -/
def memoryExceeded (sample threshold : Nat) : Bool :=
  decide (threshold < sample)

/-- The instance count of a record. -/
def instanceCount (app : JSValue) : Option Int :=
  asInt (get "instances" app)

/-- Modelled from the spec: a record is rejected at load time when its
instance count is below one. -/
def instanceCountRejected (app : JSValue) : Bool :=
  match instanceCount app with
  | some n => decide (n < 1)
  | none => false

/-- Execution modes of the supervisor. -/
inductive ExecutionMode where
  | forkedSingleProcess
  | clusteredMultiProcess
  deriving DecidableEq, Repr

/-- Modelled from the spec: `fork` is the single simple process, the
alternative is clustered. -/
def executionMode (app : JSValue) : Option ExecutionMode :=
  match get "exec_mode" app with
  | .str s => if s = "fork" then some .forkedSingleProcess else some .clusteredMultiProcess
  | _ => none

/-- Modelled from the spec: the sentinel `"none"` asks for direct execution of
the binary, any other string names a wrapping runtime. -/
def executesDirectly (app : JSValue) : Bool :=
  match get "interpreter" app with
  | .str s => decide (s = "none")
  | _ => false

/-- Modelled from the spec: the variables of a launch when the supervisor
layers the selected profile over the default one. -/
def layeredEnvironment (profile : Option String) (app : JSValue) : List (String × String) :=
  match assign (selectProfile none app) (selectProfile profile app) with
  | .object ps => envVars ps
  | _ => []

/-! ## Evaluation of literal-only expressions -/

mutual
/-- A literal-only expression evaluates to the same value under any two
ambient environments. -/
theorem eval_literalOnly (p q : ProcessEnv) :
    ∀ e : JSExpr, literalOnly e = true → eval p e = eval q e
  | .str _, _ => rfl
  | .num _, _ => rfl
  | .bool _, _ => rfl
  | .object fs, h => by
    have ih := evalFields_literalOnly p q fs (by simpa [literalOnly] using h)
    simp [eval, ih]
  | .array xs, h => by
    have ih := evalItems_literalOnly p q xs (by simpa [literalOnly] using h)
    simp [eval, ih]
  | .func _ _, _ => rfl
  | .envRead _, h => by simp [literalOnly] at h
/-- Entry lists of literal-only object literals evaluate independently of the
ambient environment. -/
theorem evalFields_literalOnly (p q : ProcessEnv) :
    ∀ fs : JSFields, literalOnlyFields fs = true → evalFields p fs = evalFields q fs
  | .nil, _ => rfl
  | .cons k v rest, h => by
    have hv : literalOnly v = true ∧ literalOnlyFields rest = true := by
      simpa [literalOnlyFields] using h
    simp [evalFields, eval_literalOnly p q v hv.1, evalFields_literalOnly p q rest hv.2]
/-- Element lists of literal-only array literals evaluate independently of the
ambient environment. -/
theorem evalItems_literalOnly (p q : ProcessEnv) :
    ∀ xs : JSItems, literalOnlyItems xs = true → evalItems p xs = evalItems q xs
  | .nil, _ => rfl
  | .cons x rest, h => by
    have hx : literalOnly x = true ∧ literalOnlyItems rest = true := by
      simpa [literalOnlyItems] using h
    simp [evalItems, eval_literalOnly p q x hx.1, evalItems_literalOnly p q rest hx.2]
end

mutual
/-- The value of a literal-only expression holds no function value. -/
theorem closureCount_eval_literalOnly (p : ProcessEnv) :
    ∀ e : JSExpr, literalOnly e = true → closureCount (eval p e) = 0
  | .str _, _ => rfl
  | .num _, _ => rfl
  | .bool _, _ => rfl
  | .object fs, h => by
    have ih := closureCountProps_evalFields p fs (by simpa [literalOnly] using h)
    simpa [eval, closureCount] using ih
  | .array xs, h => by
    have ih := closureCountElems_evalItems p xs (by simpa [literalOnly] using h)
    simpa [eval, closureCount] using ih
  | .func _ _, h => by simp [literalOnly] at h
  | .envRead _, h => by simp [literalOnly] at h
/-- The properties of a literal-only object literal hold no function value. -/
theorem closureCountProps_evalFields (p : ProcessEnv) :
    ∀ fs : JSFields, literalOnlyFields fs = true → closureCountProps (evalFields p fs) = 0
  | .nil, _ => rfl
  | .cons k v rest, h => by
    have hv : literalOnly v = true ∧ literalOnlyFields rest = true := by
      simpa [literalOnlyFields] using h
    simp [evalFields, closureCountProps, closureCount_eval_literalOnly p v hv.1,
      closureCountProps_evalFields p rest hv.2]
/-- The elements of a literal-only array literal hold no function value. -/
theorem closureCountElems_evalItems (p : ProcessEnv) :
    ∀ xs : JSItems, literalOnlyItems xs = true → closureCountElems (evalItems p xs) = 0
  | .nil, _ => rfl
  | .cons x rest, h => by
    have hx : literalOnly x = true ∧ literalOnlyItems rest = true := by
      simpa [literalOnlyItems] using h
    simp [evalItems, closureCountElems, closureCount_eval_literalOnly p x hx.1,
      closureCountElems_evalItems p rest hx.2]
end

/-- The source of the module passes the literal-only check. -/
theorem moduleSource_literalOnly : literalOnly moduleSource = true := rfl

/-! ## The claims -/

/-- C1: `apps` holds exactly one record, whose `name` is the non-empty string
"discord-giveaway-bot" and whose `script` is the non-empty string
"./discord-giveaway-bot"; the record is therefore not one with a missing
required field. -/
theorem descriptor_has_required_fields (penv : ProcessEnv) :
    elements (get "apps" (moduleExports penv)) = [descriptor penv] ∧
    (elements (get "apps" (moduleExports penv))).length = 1 ∧
    get "name" (descriptor penv) = .str "discord-giveaway-bot" ∧
    get "script" (descriptor penv) = .str "./discord-giveaway-bot" ∧
    isNonEmptyString (get "name" (descriptor penv)) = true ∧
    isNonEmptyString (get "script" (descriptor penv)) = true ∧
    missingRequiredField (descriptor penv) = false :=
  ⟨rfl, rfl, rfl, rfl, rfl, rfl, rfl⟩

/-- C2: profile "production" is stored under `env_production` and selects
exactly the mapping NODE_ENV ↦ "production"; no profile is stored under `env`
and selects exactly NODE_ENV ↦ "development"; a launch with profile
"production" has NODE_ENV = "production" in its environment. -/
theorem profile_selection (penv : ProcessEnv) :
    profileKey (some "production") = "env_production" ∧
    profileKey none = "env" ∧
    selectProfile (some "production") (descriptor penv)
      = .object [("NODE_ENV", .str "production")] ∧
    selectProfile none (descriptor penv)
      = .object [("NODE_ENV", .str "development")] ∧
    launchEnvironment (some "production") (descriptor penv) = [("NODE_ENV", "production")] ∧
    ("NODE_ENV", "production") ∈ launchEnvironment (some "production") (descriptor penv) :=
  ⟨by decide, rfl, rfl, rfl, rfl, List.mem_singleton.mpr rfl⟩

/-- C3: `max_memory_restart` is the string "1G", which read as a byte quantity
with G = 2^30 is 1073741824 bytes, a positive number; a sample of 1.1 GiB
(1181116006 bytes) exceeds it and a sample of 0.9 GiB (966367641 bytes) does
not. -/
theorem memory_threshold_one_gibibyte (penv : ProcessEnv) :
    get "max_memory_restart" (descriptor penv) = .str "1G" ∧
    memoryRestartThreshold (descriptor penv) = some 1073741824 ∧
    (1073741824 : Nat) = 2 ^ 30 ∧
    0 < (1073741824 : Nat) ∧
    (11 * 2 ^ 30 / 10 : Nat) = 1181116006 ∧
    (9 * 2 ^ 30 / 10 : Nat) = 966367641 ∧
    memoryExceeded 1181116006 1073741824 = true ∧
    memoryExceeded 966367641 1073741824 = false :=
  ⟨rfl, rfl, by norm_num, by norm_num, by norm_num, by norm_num, by decide, by decide⟩

/-- C4: `instances` is the integer 1, which is at least 1, so the record is
not rejected for an instance count below one. -/
theorem instance_count_is_one (penv : ProcessEnv) :
    get "instances" (descriptor penv) = .num 1 ∧
    instanceCount (descriptor penv) = some 1 ∧
    (∃ n, instanceCount (descriptor penv) = some n ∧ 1 ≤ n) ∧
    instanceCountRejected (descriptor penv) = false :=
  ⟨rfl, rfl, ⟨1, rfl, le_refl 1⟩, rfl⟩

/-- C5: `autorestart` is the boolean true and `watch` is the boolean false. -/
theorem restart_policy (penv : ProcessEnv) :
    get "autorestart" (descriptor penv) = .bool true ∧
    get "watch" (descriptor penv) = .bool false :=
  ⟨rfl, rfl⟩

/-- C6: `interpreter` is the sentinel string "none", so the binary is executed
directly, and `exec_mode` is "fork", the forked single-process member of the
execution-mode enumeration and not the clustered one. -/
theorem direct_fork_execution (penv : ProcessEnv) :
    get "interpreter" (descriptor penv) = .str "none" ∧
    executesDirectly (descriptor penv) = true ∧
    get "exec_mode" (descriptor penv) = .str "fork" ∧
    executionMode (descriptor penv) = some .forkedSingleProcess ∧
    executionMode (descriptor penv) ≠ some .clusteredMultiProcess := by
  refine ⟨rfl, rfl, rfl, rfl, ?_⟩
  show some ExecutionMode.forkedSingleProcess ≠ some ExecutionMode.clusteredMultiProcess
  decide

/-- C7: `error_file` is "./bot-error.log", `out_file` is "./bot.log" and
`time` is the boolean true. -/
theorem log_redirection (penv : ProcessEnv) :
    get "error_file" (descriptor penv) = .str "./bot-error.log" ∧
    get "out_file" (descriptor penv) = .str "./bot.log" ∧
    get "time" (descriptor penv) = .bool true :=
  ⟨rfl, rfl, rfl⟩

/-- C8: the module source is built only from string, number and boolean
literals nested in object literals and one array literal; its value holds no
function value; and evaluating the module under any two ambient environments
yields the same value. -/
theorem module_is_static_data :
    literalOnly moduleSource = true ∧
    arrayCount moduleSource = 1 ∧
    (∀ penv, closureCount (moduleExports penv) = 0) ∧
    (∀ p q : ProcessEnv, moduleExports p = moduleExports q) :=
  ⟨rfl, rfl,
    fun penv => closureCount_eval_literalOnly penv moduleSource moduleSource_literalOnly,
    fun p q => eval_literalOnly p q moduleSource moduleSource_literalOnly⟩

/-- C9: the record declares exactly the two profile keys `env` and
`env_production`; both profiles have the key set NODE_ENV and differ in its
value; overlaying the production profile on the default one gives the
production profile, and every variable of the layered launch is a variable of
the production profile. -/
theorem production_overlay_is_production (penv : ProcessEnv) :
    profileKeys (descriptor penv) = ["env", "env_production"] ∧
    ownKeys (selectProfile none (descriptor penv)) = ["NODE_ENV"] ∧
    ownKeys (selectProfile (some "production") (descriptor penv)) = ["NODE_ENV"] ∧
    get "NODE_ENV" (selectProfile none (descriptor penv))
      ≠ get "NODE_ENV" (selectProfile (some "production") (descriptor penv)) ∧
    assign (selectProfile none (descriptor penv))
        (selectProfile (some "production") (descriptor penv))
      = selectProfile (some "production") (descriptor penv) ∧
    layeredEnvironment (some "production") (descriptor penv)
      = launchEnvironment (some "production") (descriptor penv) ∧
    ownKeys (selectProfile none (descriptor penv))
      ⊆ ownKeys (selectProfile (some "production") (descriptor penv)) ∧
    layeredEnvironment (some "production") (descriptor penv)
      ⊆ launchEnvironment (some "production") (descriptor penv) := by
  refine ⟨rfl, rfl, rfl, ?_, rfl, rfl, fun _ h => h, fun _ h => h⟩
  show JSValue.str "development" ≠ JSValue.str "production"
  intro h
  exact absurd (JSValue.str.inj h) (by decide)

/-- C10: `out_file` and `error_file` are distinct strings and neither equals
`script`. -/
theorem log_paths_distinct (penv : ProcessEnv) :
    (asString (get "out_file" (descriptor penv))).isSome = true ∧
    (asString (get "error_file" (descriptor penv))).isSome = true ∧
    (asString (get "script" (descriptor penv))).isSome = true ∧
    asString (get "out_file" (descriptor penv)) ≠ asString (get "error_file" (descriptor penv)) ∧
    asString (get "out_file" (descriptor penv)) ≠ asString (get "script" (descriptor penv)) ∧
    asString (get "error_file" (descriptor penv)) ≠ asString (get "script" (descriptor penv)) := by
  refine ⟨rfl, rfl, rfl, ?_, ?_, ?_⟩
  · show some "./bot.log" ≠ some "./bot-error.log"
    decide
  · show some "./bot.log" ≠ some "./discord-giveaway-bot"
    decide
  · show some "./bot-error.log" ≠ some "./discord-giveaway-bot"
    decide

end Ecosystem
